import Mathlib

/-!
# QuakeNite building system — verification development

Shallow embedding of the server-side structure placement and validation
engine (`src/MP/code/game/g_building.c`, with constants from
`g_building.h` / `bg_building.h`).

Modelling conventions:
* C `float` world coordinates become `ℚ` (exact arithmetic).
* `buildType_t` is a C int enum, so piece types are `Int` with
  `BUILD_NONE = 0`, …, `BUILD_NUM_TYPES = 5`.
* C pointers that may be `NULL` become `Option`; dereferencing a null
  pointer is modelled as a distinguished `crash` outcome.
* The external world-collision trace (`trap_Trace`) is an oracle
  parameter: for the placement box test it returns whether the trace
  reported `startsolid || allsolid`; for the view trace in
  `Cmd_BuildPlace_f` the resulting `tr.endpos` is passed in directly.
* The engine entity array is modelled by the list of in-use
  `ET_BUILDABLE` entities (`GameState.buildables`) plus `level.time`.
* Entity allocation (`G_Spawn`) may fail; its success is an oracle
  boolean `allocOk`.
-/


/-! ## Data model and operations (embedding of g_building.c) -/


/-- A `vec3_t`, with exact rational coordinates. -/
structure Vec3 where
  x : ℚ
  y : ℚ
  z : ℚ
deriving DecidableEq

/-- `VectorAdd`. -/
def vecAdd (a b : Vec3) : Vec3 :=
  ⟨a.x + b.x, a.y + b.y, a.z + b.z⟩

/-- `BUILD_NUM_TYPES` (g_building.h): `BUILD_NONE=0, WALL, FLOOR, RAMP, ROOF`. -/
def BUILD_NUM_TYPES : Int := 5

/-- `BUILD_GRID_SIZE` (g_building.h). -/
def BUILD_GRID_SIZE : ℚ := 64

/-- `BUILD_COOLDOWN_MS` (g_building.h): 100 ms between placements. -/
def BUILD_COOLDOWN_MS : Int := 100

/-- `BUILD_DEFAULT_HEALTH` (g_building.h). -/
def BUILD_DEFAULT_HEALTH : Int := 150

/-- `buildPieceDef_t` (g_building.h). -/
structure buildPieceDef where
  type : Int
  name : String
  modelPath : String
  iconPath : String
  mins : Vec3
  maxs : Vec3
  health : Int
  materialCost : Int
  gridSnap : ℚ
deriving DecidableEq

/-- The static `buildPieceDefs[BUILD_NUM_TYPES]` table (g_building.c). -/
def buildPieceDefs : List buildPieceDef :=
  [ { type := 0, name := "None", modelPath := "", iconPath := "",
      mins := ⟨0, 0, 0⟩, maxs := ⟨0, 0, 0⟩,
      health := 0, materialCost := 0, gridSnap := 0 },
    { type := 1, name := "Wall",
      modelPath := "models/buildables/wall.md3", iconPath := "gfx/hud/build_wall.tga",
      mins := ⟨-32, -4, 0⟩, maxs := ⟨32, 4, 64⟩,
      health := BUILD_DEFAULT_HEALTH, materialCost := 10, gridSnap := BUILD_GRID_SIZE },
    { type := 2, name := "Floor",
      modelPath := "models/buildables/floor.md3", iconPath := "gfx/hud/build_floor.tga",
      mins := ⟨-32, -32, -4⟩, maxs := ⟨32, 32, 4⟩,
      health := BUILD_DEFAULT_HEALTH, materialCost := 10, gridSnap := BUILD_GRID_SIZE },
    { type := 3, name := "Ramp",
      modelPath := "models/buildables/ramp.md3", iconPath := "gfx/hud/build_ramp.tga",
      mins := ⟨-32, -32, 0⟩, maxs := ⟨32, 32, 64⟩,
      health := BUILD_DEFAULT_HEALTH, materialCost := 10, gridSnap := BUILD_GRID_SIZE },
    { type := 4, name := "Roof",
      modelPath := "models/buildables/roof.md3", iconPath := "gfx/hud/build_roof.tga",
      mins := ⟨-32, -32, 0⟩, maxs := ⟨32, 32, 32⟩,
      health := 100, materialCost := 10, gridSnap := BUILD_GRID_SIZE } ]

/-- `G_GetBuildPieceDef` (g_building.c:106-111).  The C function returns a
pointer into `buildPieceDefs`; `Option` models the pointer (out-of-range
`List.get?` would be `none`, mirroring an out-of-bounds array access). -/
def G_GetBuildPieceDef (type : Int) : Option buildPieceDef :=
  if type < 0 ∨ BUILD_NUM_TYPES ≤ type then
    buildPieceDefs.get? 0
  else
    buildPieceDefs.get? type.toNat

/-- `G_SnapToGrid` (g_building.c:116-120): each axis independently becomes
`floor(x / gridSize + 0.5) * gridSize`.  (`Rat.floor` is the floor
function on `ℚ`: `Rat.floor_def'` identifies it with `⌊·⌋`.) -/
def G_SnapToGrid (origin : Vec3) (gridSize : ℚ) : Vec3 :=
  ⟨((origin.x / gridSize + 1/2).floor : ℚ) * gridSize,
   ((origin.y / gridSize + 1/2).floor : ℚ) * gridSize,
   ((origin.z / gridSize + 1/2).floor : ℚ) * gridSize⟩

/-- A live `ET_BUILDABLE` entity: the fields of `gentity_t` that the
building engine reads back (`buildableType`, `r.currentOrigin`, plus the
fields set up by `G_SpawnBuildable`). -/
structure Buildable where
  buildableType : Int
  origin : Vec3
  angles : Vec3
  health : Int
  owner : Int
deriving DecidableEq

/-- The per-client state the building engine touches: `ps.clientNum`,
`ps.stats[STAT_QN_MATERIALS]`, and the `buildState_t` fields. -/
structure ClientState where
  clientNum : Int
  materials : Int
  active : Bool
  selectedType : Int
  rotation : Int
  lastBuildTime : Int
deriving DecidableEq

/-- A `gentity_t *` actor: entity number plus possibly-NULL client. -/
structure Gentity where
  number : Int
  client : Option ClientState
deriving DecidableEq

/-- The building cvars: `g_buildingEnabled.integer`,
`g_buildingStartMaterials.integer`, `g_buildingMaxStructures.integer`. -/
structure Config where
  buildingEnabled : Int
  startMaterials : Int
  maxStructures : Int
deriving DecidableEq

/-- The engine-global state the building engine touches: the in-use
`ET_BUILDABLE` entities of `g_entities`, and `level.time`. -/
structure GameState where
  buildables : List Buildable
  time : Int
deriving DecidableEq

/-- `G_CountBuildables` (g_building.c:125-140): counts in-use entities of
type `ET_BUILDABLE`, i.e. the length of the live-buildables list. -/
def G_CountBuildables (s : GameState) : Nat :=
  s.buildables.length

/-- The entity number passed to `trap_Trace` as the ignored entity:
`builder ? builder->s.number : -1`. -/
def builderNum (builder : Option Gentity) : Int :=
  match builder with
  | some b => b.number
  | none => -1

/-- The materials gate of `G_CanPlaceBuildable` (g_building.c:161-166):
only checked when `builder && builder->client`. -/
def materialsShort (builder : Option Gentity) (d : buildPieceDef) : Bool :=
  match builder with
  | some b =>
    match b.client with
    | some c => decide (c.materials < d.materialCost)
    | none => false
  | none => false

/-- One iteration of the overlap loop of `G_CanPlaceBuildable`
(g_building.c:185-217): `true` iff the candidate piece (definition `d`
placed at `origin`) AABB-intersects the existing buildable `hit` under the
closed-interval per-axis test.  A `none` piece definition for `hit` is
skipped (`continue`). -/
def overlapsExisting (d : buildPieceDef) (origin : Vec3) (hit : Buildable) : Bool :=
  match G_GetBuildPieceDef hit.buildableType with
  | none => false
  | some hitDef =>
    let newMins := vecAdd origin d.mins
    let newMaxs := vecAdd origin d.maxs
    let hitMins := vecAdd hit.origin hitDef.mins
    let hitMaxs := vecAdd hit.origin hitDef.maxs
    decide (newMins.x ≤ hitMaxs.x ∧ newMaxs.x ≥ hitMins.x ∧
            newMins.y ≤ hitMaxs.y ∧ newMaxs.y ≥ hitMins.y ∧
            newMins.z ≤ hitMaxs.z ∧ newMaxs.z ≥ hitMins.z)

/-- `G_CanPlaceBuildable` (g_building.c:145-220).  `worldTrace origin mins
maxs ignore` is the external `trap_Trace` oracle, returning
`tr.startsolid || tr.allsolid` for the degenerate box trace. -/
def G_CanPlaceBuildable (cfg : Config)
    (worldTrace : Vec3 → Vec3 → Vec3 → Int → Bool)
    (s : GameState) (type : Int) (origin angles : Vec3)
    (builder : Option Gentity) : Bool :=
  if cfg.buildingEnabled = 0 then false
  else
    match G_GetBuildPieceDef type with
    | none => false
    | some d =>
      if type = 0 then false
      else if materialsShort builder d then false
      else if cfg.maxStructures ≤ (G_CountBuildables s : Int) then false
      else if worldTrace origin d.mins d.maxs (builderNum builder) then false
      else if s.buildables.any (fun hit => overlapsExisting d origin hit) then false
      else true

/-- Outcome of `G_SpawnBuildable`: `crash` models the null-pointer
dereference `builder->client->ps.clientNum` with `builder != NULL` but
`builder->client == NULL`; `fail` is a `return NULL` carrying the game
state and builder at that point; `success` carries the updated state,
updated builder, and the new entity. -/
inductive SpawnResult where
  | crash : SpawnResult
  | fail : GameState → Option Gentity → SpawnResult
  | success : GameState → Option Gentity → Buildable → SpawnResult
deriving DecidableEq

/-- `G_SpawnBuildable` (g_building.c:253-330).  `allocOk` is the external
`G_Spawn` allocation oracle (`false` = "no free entities"). -/
def G_SpawnBuildable (cfg : Config)
    (worldTrace : Vec3 → Vec3 → Vec3 → Int → Bool) (allocOk : Bool)
    (s : GameState) (type : Int) (origin angles : Vec3)
    (builder : Option Gentity) : SpawnResult :=
  if cfg.buildingEnabled = 0 then .fail s builder
  else
    match G_GetBuildPieceDef type with
    | none => .fail s builder
    | some d =>
      if type = 0 then .fail s builder
      else
        let snappedOrigin := G_SnapToGrid origin d.gridSnap
        match G_CanPlaceBuildable cfg worldTrace s type snappedOrigin angles builder with
        | false => .fail s builder
        | true =>
        match allocOk with
        | false => .fail s builder
        | true =>
          match builder with
          | some b =>
            match b.client with
            | none => .crash
            | some c =>
              let ent : Buildable :=
                { buildableType := type, origin := snappedOrigin,
                  angles := angles, health := d.health, owner := c.clientNum }
              let s' : GameState := { s with buildables := s.buildables ++ [ent] }
              let b' : Gentity :=
                { b with client := some { c with materials := c.materials - d.materialCost } }
              .success s' (some b') ent
          | none =>
            let ent : Buildable :=
              { buildableType := type, origin := snappedOrigin,
                angles := angles, health := d.health, owner := -1 }
            let s' : GameState := { s with buildables := s.buildables ++ [ent] }
            .success s' none ent

/-- `G_BuildingPlayerSpawn` (g_building.c:335-346): on spawn/respawn,
materials are set to `g_buildingStartMaterials` only when building is
enabled; the `buildState_t` is always zeroed (`memset`). -/
def G_BuildingPlayerSpawn (cfg : Config) (ent : Gentity) : Gentity :=
  match ent.client with
  | none => ent
  | some c =>
    let materials' := if cfg.buildingEnabled = 0 then c.materials else cfg.startMaterials
    let c' : ClientState :=
      { c with materials := materials',
               active := false, selectedType := 0, rotation := 0, lastBuildTime := 0 }
    { ent with client := some c' }

/-- The actor-visible outcome of a `buildplace` command: `noreply` is a
silent `return`; `notEnoughMaterials` is the distinct pre-trace message
`"Not enough materials"` + `EV_BUILD_FAIL`; `cannotPlaceHere` is the
generic `"Cannot place here"` + `EV_BUILD_FAIL`; `placed` is a successful
placement (`EV_BUILD_PLACE`). -/
inductive PlaceSignal where
  | noreply : PlaceSignal
  | notEnoughMaterials : PlaceSignal
  | cannotPlaceHere : PlaceSignal
  | placed : PlaceSignal
deriving DecidableEq

/-- Result of `Cmd_BuildPlace_f`: the game state, the (possibly updated)
acting entity, and the emitted signal. -/
structure CmdResult where
  state : GameState
  ent : Gentity
  signal : PlaceSignal
deriving DecidableEq

/-- `ent->client->buildState.lastBuildTime = level.time` on the acting
entity. -/
def setLastBuildTime (g : Gentity) (t : Int) : Gentity :=
  match g.client with
  | none => g
  | some c => { g with client := some { c with lastBuildTime := t } }

/-- `Cmd_BuildPlace_f` (g_building.c:405-454).  `traceEndpos` is the
`tr.endpos` of the external view trace that selects the candidate origin.
Returns `none` exactly when the underlying spawn would dereference a null
client pointer (never reachable from this command, which checks
`ent->client` first). -/
def Cmd_BuildPlace_f (cfg : Config)
    (worldTrace : Vec3 → Vec3 → Vec3 → Int → Bool) (allocOk : Bool)
    (traceEndpos : Vec3) (s : GameState) (ent : Gentity) : Option CmdResult :=
  match ent.client with
  | none => some ⟨s, ent, .noreply⟩
  | some c =>
    if c.active = false then some ⟨s, ent, .noreply⟩
    else if s.time < c.lastBuildTime + BUILD_COOLDOWN_MS then some ⟨s, ent, .noreply⟩
    else
      match G_GetBuildPieceDef c.selectedType with
      | none => some ⟨s, ent, .noreply⟩
      | some d =>
        if c.materials < d.materialCost then some ⟨s, ent, .notEnoughMaterials⟩
        else
          let origin := traceEndpos
          let angles : Vec3 := ⟨0, (c.rotation : ℚ), 0⟩
          match G_SpawnBuildable cfg worldTrace allocOk s c.selectedType origin angles (some ent) with
          | .crash => none
          | .fail s' b' => some ⟨s', b'.getD ent, .cannotPlaceHere⟩
          | .success s' b' e =>
            some ⟨s', setLastBuildTime (b'.getD ent) s.time, .placed⟩

/-- One step of the building engine on the global buildable set: a
successful `G_SpawnBuildable` (any oracle answers, any builder), the
destruction path `G_BuildableDie` → `G_FreeEntity` removing one live
buildable, or the simulation clock advancing. -/
inductive BuildStep (cfg : Config) : GameState → GameState → Prop
  | spawn (worldTrace : Vec3 → Vec3 → Vec3 → Int → Bool) (allocOk : Bool)
      (s : GameState) (type : Int) (origin angles : Vec3)
      (builder : Option Gentity) (s' : GameState) (b' : Option Gentity) (e : Buildable) :
      G_SpawnBuildable cfg worldTrace allocOk s type origin angles builder =
        .success s' b' e →
      BuildStep cfg s s'
  | destroy (s : GameState) (l1 : List Buildable) (e : Buildable) (l2 : List Buildable) :
      s.buildables = l1 ++ e :: l2 →
      BuildStep cfg s { s with buildables := l1 ++ l2 }
  | tick (s : GameState) (t : Int) :
      BuildStep cfg s { s with time := t }

/-- A state reachable by the building engine from the empty world. -/
def Reachable (cfg : Config) (s : GameState) : Prop :=
  Relation.ReflTransGen (BuildStep cfg) { buildables := [], time := 0 } s

/-- Closed-interval world-space AABB overlap between two live buildables,
each box being the buildable's origin plus its piece definition's
`mins`/`maxs` — the same test `G_CanPlaceBuildable` applies. -/
def buildableOverlap (a b : Buildable) : Bool :=
  match G_GetBuildPieceDef a.buildableType, G_GetBuildPieceDef b.buildableType with
  | some da, some db =>
    decide ((vecAdd a.origin da.mins).x ≤ (vecAdd b.origin db.maxs).x ∧
            (vecAdd a.origin da.maxs).x ≥ (vecAdd b.origin db.mins).x ∧
            (vecAdd a.origin da.mins).y ≤ (vecAdd b.origin db.maxs).y ∧
            (vecAdd a.origin da.maxs).y ≥ (vecAdd b.origin db.mins).y ∧
            (vecAdd a.origin da.mins).z ≤ (vecAdd b.origin db.maxs).z ∧
            (vecAdd a.origin da.maxs).z ≥ (vecAdd b.origin db.mins).z)
  | _, _ => false

/-- The non-overlap invariant: no two distinct live structures'
world-space AABBs intersect. -/
def NoOverlap (s : GameState) : Prop :=
  s.buildables.Pairwise (fun a b => buildableOverlap a b = false)

/-- The entity record `G_SpawnBuildable` sets up on success. -/
def spawnedEnt (ty : Int) (d : buildPieceDef) (o ang : Vec3) (owner : Int) : Buildable :=
  { buildableType := ty, origin := G_SnapToGrid o d.gridSnap,
    angles := ang, health := d.health, owner := owner }

/-- A world-collision oracle that reports empty space everywhere. -/
def wtNone : Vec3 → Vec3 → Vec3 → Int → Bool := fun o m M i => false

/-- The zero vector. -/
def v0 : Vec3 := ⟨0, 0, 0⟩

/-- Default cvars with building enabled. -/
def cfgOn : Config := ⟨1, 100, 256⟩

/-- Default cvars with building disabled. -/
def cfgOff : Config := ⟨0, 100, 256⟩

/-- A client in build mode with a wall selected, 100 materials, and no
recent placement. -/
def clientReady : ClientState := ⟨0, 100, true, 1, 0, 0⟩

/-- An actor holding `clientReady`. -/
def entReady : Gentity := ⟨0, some clientReady⟩

/-- An empty world at `level.time = 100`. -/
def sEmpty100 : GameState := ⟨[], 100⟩

/-- The state/actor/signal produced by a buildplace of `entReady` in
`sEmpty100` with default cvars. -/
def rPlaced : CmdResult :=
  ⟨⟨[⟨1, v0, v0, 150, 0⟩], 100⟩, ⟨0, some ⟨0, 90, true, 1, 0, 100⟩⟩, .placed⟩

/-- The wall piece definition: entry 1 of the catalog. -/
def wallDef : buildPieceDef :=
  { type := 1, name := "Wall",
    modelPath := "models/buildables/wall.md3", iconPath := "gfx/hud/build_wall.tga",
    mins := ⟨-32, -4, 0⟩, maxs := ⟨32, 4, 64⟩,
    health := BUILD_DEFAULT_HEALTH, materialCost := 10, gridSnap := BUILD_GRID_SIZE }

/-- A placed wall entity at the origin. -/
def wallEnt : Buildable := ⟨1, v0, v0, 150, 0⟩

/-- A world containing exactly one wall at the origin. -/
def sWall : GameState := ⟨[wallEnt], 0⟩

/-- Cvars with the structure cap set to zero. -/
def cfgMax0 : Config := ⟨1, 100, 0⟩

/-- A poorer client used by the materials-rejection witness. -/
def clientPoor : ClientState := ⟨0, 3, true, 1, 0, 0⟩

/-- An actor holding `clientPoor`. -/
def entPoor : Gentity := ⟨0, some clientPoor⟩

/-- A client with a part-spent balance mid-session. -/
def clientSpent : ClientState := ⟨0, 7, true, 1, 90, 5⟩

/-- An actor holding `clientSpent`. -/
def entSpent : Gentity := ⟨0, some clientSpent⟩


/-! ## Lemmas -/


/-- `Rat.floor` is the floor function `⌊·⌋` on `ℚ`. -/
lemma ratFloor_eq_intFloor (q : ℚ) : q.floor = ⌊q⌋ := by
  rw [Rat.floor_def', Rat.floor_def]

/-- Snapping an already snapped axis changes nothing. -/
lemma snapAxis_idem (x g : ℚ) :
    ((((x / g + 1/2).floor : ℚ) * g / g + 1/2).floor : ℚ) * g
      = ((x / g + 1/2).floor : ℚ) * g := by
  rcases eq_or_ne g 0 with hg | hg
  · simp [hg]
  · rw [ratFloor_eq_intFloor, ratFloor_eq_intFloor, mul_div_cancel_right₀ _ hg]
    rw [Int.floor_int_add]
    norm_num

/-- `G_GetBuildPieceDef` never returns `none`. -/
lemma getBuildPieceDef_isSome (t : Int) : (G_GetBuildPieceDef t).isSome = true := by
  unfold G_GetBuildPieceDef BUILD_NUM_TYPES
  split
  · rfl
  · next h =>
    push_neg at h
    obtain ⟨h0, h5⟩ := h
    interval_cases t <;> rfl

/-- Complete case analysis of `G_SpawnBuildable`: it either fails
returning the unchanged state and builder, crashes on a non-null builder
with a null client, or succeeds appending exactly one entity and (when the
builder has a client) debiting the material cost once. -/
lemma spawn_characterize (cfg : Config)
    (wt : Vec3 → Vec3 → Vec3 → Int → Bool) (alloc : Bool)
    (s : GameState) (ty : Int) (o ang : Vec3) (b : Option Gentity) :
    (G_SpawnBuildable cfg wt alloc s ty o ang b = .fail s b) ∨
    (G_SpawnBuildable cfg wt alloc s ty o ang b = .crash ∧
      ∃ g d, b = some g ∧ g.client = none ∧
        G_GetBuildPieceDef ty = some d ∧ alloc = true ∧
        G_CanPlaceBuildable cfg wt s ty (G_SnapToGrid o d.gridSnap) ang b = true) ∨
    (∃ d, G_GetBuildPieceDef ty = some d ∧ ty ≠ 0 ∧ alloc = true ∧
      G_CanPlaceBuildable cfg wt s ty (G_SnapToGrid o d.gridSnap) ang b = true ∧
      ((∃ g c, b = some g ∧ g.client = some c ∧
          G_SpawnBuildable cfg wt alloc s ty o ang b = .success
            { s with buildables := s.buildables ++ [spawnedEnt ty d o ang c.clientNum] }
            (some { g with client := some { c with materials := c.materials - d.materialCost } })
            (spawnedEnt ty d o ang c.clientNum)) ∨
       (b = none ∧
          G_SpawnBuildable cfg wt alloc s ty o ang b = .success
            { s with buildables := s.buildables ++ [spawnedEnt ty d o ang (-1)] }
            none
            (spawnedEnt ty d o ang (-1))))) := by
  by_cases he : cfg.buildingEnabled = 0
  · left
    unfold G_SpawnBuildable
    simp [he]
  · cases hd : G_GetBuildPieceDef ty with
    | none =>
      left
      unfold G_SpawnBuildable
      simp [he, hd]
    | some d =>
      by_cases ht : ty = 0
      · left
        unfold G_SpawnBuildable
        simp [he, hd, ht]
        cases hx : G_GetBuildPieceDef 0 <;> simp [hx]
      · cases hcp : G_CanPlaceBuildable cfg wt s ty (G_SnapToGrid o d.gridSnap) ang b with
        | false =>
          left
          unfold G_SpawnBuildable
          simp [he, hd, ht, hcp]
        | true =>
          cases alloc with
          | false =>
            left
            unfold G_SpawnBuildable
            simp [he, hd, ht, hcp]
          | true =>
            cases b with
            | none =>
              right; right
              refine ⟨d, rfl, ht, rfl, hcp, Or.inr ⟨rfl, ?_⟩⟩
              unfold G_SpawnBuildable
              simp [he, hd, ht, hcp, spawnedEnt]
            | some g =>
              cases hgc : g.client with
              | none =>
                right; left
                constructor
                · unfold G_SpawnBuildable
                  simp [he, hd, ht, hcp, hgc]
                · exact ⟨g, d, rfl, hgc, rfl, rfl, hcp⟩
              | some c =>
                right; right
                refine ⟨d, rfl, ht, rfl, hcp, Or.inl ⟨g, c, rfl, hgc, ?_⟩⟩
                unfold G_SpawnBuildable
                simp [he, hd, ht, hcp, hgc, spawnedEnt]

/-- A rejecting `G_SpawnBuildable` returns the game state and builder it
was given: every `return NULL` precedes any mutation. -/
lemma spawn_fail_inv {cfg : Config} {wt : Vec3 → Vec3 → Vec3 → Int → Bool}
    {alloc : Bool} {s : GameState} {ty : Int} {o ang : Vec3}
    {b : Option Gentity} {s' : GameState} {b' : Option Gentity}
    (h : G_SpawnBuildable cfg wt alloc s ty o ang b = .fail s' b') :
    s' = s ∧ b' = b := by
  rcases spawn_characterize cfg wt alloc s ty o ang b with hf | ⟨hc, _⟩ | ⟨d, _, _, _, _, hsucc⟩
  · rw [hf] at h
    injection h with h1 h2
    exact ⟨h1.symm, h2.symm⟩
  · rw [hc] at h
    exact SpawnResult.noConfusion h
  · rcases hsucc with ⟨g, c, _, _, hs⟩ | ⟨_, hs⟩ <;>
    · rw [hs] at h
      exact SpawnResult.noConfusion h

/-- Inverting a successful `G_SpawnBuildable`. -/
lemma spawn_success_inv {cfg : Config} {wt : Vec3 → Vec3 → Vec3 → Int → Bool}
    {alloc : Bool} {s : GameState} {ty : Int} {o ang : Vec3}
    {b : Option Gentity} {s' : GameState} {b' : Option Gentity} {e : Buildable}
    (h : G_SpawnBuildable cfg wt alloc s ty o ang b = .success s' b' e) :
    ∃ d, G_GetBuildPieceDef ty = some d ∧ ty ≠ 0 ∧ alloc = true ∧
      e.buildableType = ty ∧ e.origin = G_SnapToGrid o d.gridSnap ∧
      s' = { s with buildables := s.buildables ++ [e] } ∧
      G_CanPlaceBuildable cfg wt s ty (G_SnapToGrid o d.gridSnap) ang b = true := by
  rcases spawn_characterize cfg wt alloc s ty o ang b with hf | ⟨hc, _⟩ | ⟨d, hd, ht, ha, hcp, hsucc⟩
  · rw [hf] at h
    exact SpawnResult.noConfusion h
  · rw [hc] at h
    exact SpawnResult.noConfusion h
  · rcases hsucc with ⟨g, c, hb, hgc, hs⟩ | ⟨hb, hs⟩ <;>
    · rw [hs] at h
      injection h with h1 h2 h3
      subst h3
      exact ⟨d, hd, ht, ha, rfl, rfl, h1.symm, hcp⟩

/-- A crashing `G_SpawnBuildable` has a non-null builder with a null
client (the dereference at the owner assignment), and had passed every
validation gate, the materials check having been skipped. -/
lemma spawn_crash_inv {cfg : Config} {wt : Vec3 → Vec3 → Vec3 → Int → Bool}
    {alloc : Bool} {s : GameState} {ty : Int} {o ang : Vec3}
    {b : Option Gentity}
    (h : G_SpawnBuildable cfg wt alloc s ty o ang b = .crash) :
    ∃ g, b = some g ∧ g.client = none ∧
      ∃ d, G_GetBuildPieceDef ty = some d ∧
        G_CanPlaceBuildable cfg wt s ty (G_SnapToGrid o d.gridSnap) ang b = true := by
  rcases spawn_characterize cfg wt alloc s ty o ang b with hf | ⟨hc, hcrash⟩ | ⟨d, _, _, _, _, hsucc⟩
  · rw [hf] at h
    exact SpawnResult.noConfusion h
  · obtain ⟨g, d, hb, hgc, hd, _, hcp⟩ := hcrash
    exact ⟨g, hb, hgc, d, hd, hcp⟩
  · rcases hsucc with ⟨g, c, hb, hgc, hs⟩ | ⟨hb, hs⟩ <;>
    · rw [hs] at h
      exact SpawnResult.noConfusion h

/-- A successful `G_SpawnBuildable` through a builder with a client:
exact shape of the updated builder (single debit) and state. -/
lemma spawn_success_client_inv {cfg : Config} {wt : Vec3 → Vec3 → Vec3 → Int → Bool}
    {alloc : Bool} {s : GameState} {ty : Int} {o ang : Vec3}
    {g0 : Gentity} {c0 : ClientState} {s' : GameState} {b' : Option Gentity} {e : Buildable}
    (hcl : g0.client = some c0)
    (h : G_SpawnBuildable cfg wt alloc s ty o ang (some g0) = .success s' b' e) :
    ∃ d, G_GetBuildPieceDef ty = some d ∧
      b' = some { g0 with client := some { c0 with materials := c0.materials - d.materialCost } } ∧
      s' = { s with buildables := s.buildables ++ [e] } := by
  rcases spawn_characterize cfg wt alloc s ty o ang (some g0) with hf | ⟨hc, _⟩ | ⟨d, hd, ht, ha, hcp, hsucc⟩
  · rw [hf] at h
    exact SpawnResult.noConfusion h
  · rw [hc] at h
    exact SpawnResult.noConfusion h
  · rcases hsucc with ⟨g, c, hb, hgc, hs⟩ | ⟨hb, hs⟩
    · injection hb with hb
      subst hb
      rw [hcl] at hgc
      injection hgc with hgc
      subst hgc
      rw [hs] at h
      injection h with h1 h2 h3
      refine ⟨d, hd, h2.symm, ?_⟩
      rw [← h1, h3]
    · exact Option.noConfusion hb

/-- Building a successful spawn from passed gates (builder with client,
allocation succeeding). -/
lemma spawn_success_of {cfg : Config} {wt : Vec3 → Vec3 → Vec3 → Int → Bool}
    {s : GameState} {ty : Int} {o ang : Vec3} {g : Gentity} {c : ClientState}
    {d : buildPieceDef}
    (he : cfg.buildingEnabled ≠ 0) (hd : G_GetBuildPieceDef ty = some d) (ht : ty ≠ 0)
    (hcp : G_CanPlaceBuildable cfg wt s ty (G_SnapToGrid o d.gridSnap) ang (some g) = true)
    (hgc : g.client = some c) :
    G_SpawnBuildable cfg wt true s ty o ang (some g) = .success
      { s with buildables := s.buildables ++ [spawnedEnt ty d o ang c.clientNum] }
      (some { g with client := some { c with materials := c.materials - d.materialCost } })
      (spawnedEnt ty d o ang c.clientNum) := by
  unfold G_SpawnBuildable
  simp [he, hd, ht, hcp, hgc, spawnedEnt]

/-- Everything a passing `G_CanPlaceBuildable` guarantees. -/
lemma canPlace_true_inv {cfg : Config} {wt : Vec3 → Vec3 → Vec3 → Int → Bool}
    {s : GameState} {ty : Int} {o ang : Vec3} {b : Option Gentity}
    (h : G_CanPlaceBuildable cfg wt s ty o ang b = true) :
    cfg.buildingEnabled ≠ 0 ∧ ty ≠ 0 ∧
    ∃ d, G_GetBuildPieceDef ty = some d ∧ materialsShort b d = false ∧
      (G_CountBuildables s : Int) < cfg.maxStructures ∧
      wt o d.mins d.maxs (builderNum b) = false ∧
      ∀ hit ∈ s.buildables, overlapsExisting d o hit = false := by
  unfold G_CanPlaceBuildable at h
  repeat' split at h
  all_goals simp_all [List.any_eq_true]

/-- With the structure cap reached, `G_CanPlaceBuildable` always fails. -/
lemma canPlace_false_of_full {cfg : Config} {wt : Vec3 → Vec3 → Vec3 → Int → Bool}
    {s : GameState} {ty : Int} {o ang : Vec3} {b : Option Gentity}
    (hfull : cfg.maxStructures ≤ (G_CountBuildables s : Int)) :
    G_CanPlaceBuildable cfg wt s ty o ang b = false := by
  unfold G_CanPlaceBuildable
  by_cases he : cfg.buildingEnabled = 0
  · simp [he]
  · cases hd : G_GetBuildPieceDef ty with
    | none => simp [he, hd]
    | some d =>
      by_cases ht : ty = 0
      · simp [he, hd, ht]
      · by_cases hm : materialsShort b d = true
        · simp [he, hd, ht, hm]
        · simp [he, hd, ht, hm, hfull]

/-- Overlapping any existing buildable makes `G_CanPlaceBuildable` fail. -/
lemma canPlace_false_of_overlap {cfg : Config} {wt : Vec3 → Vec3 → Vec3 → Int → Bool}
    {s : GameState} {ty : Int} {o ang : Vec3} {b : Option Gentity}
    {d : buildPieceDef} {hit : Buildable}
    (hd : G_GetBuildPieceDef ty = some d)
    (hmem : hit ∈ s.buildables)
    (hov : overlapsExisting d o hit = true) :
    G_CanPlaceBuildable cfg wt s ty o ang b = false := by
  unfold G_CanPlaceBuildable
  by_cases he : cfg.buildingEnabled = 0
  · simp [he]
  · by_cases ht : ty = 0
    · subst ht
      simp [he, hd]
    · by_cases hm : materialsShort b d = true
      · simp [he, hd, ht, hm]
      · by_cases hcount : cfg.maxStructures ≤ (G_CountBuildables s : Int)
        · simp [he, hd, ht, hm, hcount]
        · by_cases hw : wt o d.mins d.maxs (builderNum b) = true
          · simp [he, hd, ht, hm, hcount, hw]
          · have hany : s.buildables.any (fun hit => overlapsExisting d o hit) = true :=
              List.any_eq_true.mpr ⟨hit, hmem, hov⟩
            simp [he, hd, ht, hm, hcount, hw, hany]

/-- The closed-interval AABB test is symmetric. -/
lemma buildableOverlap_symm (a b : Buildable) :
    buildableOverlap a b = buildableOverlap b a := by
  unfold buildableOverlap
  cases ha : G_GetBuildPieceDef a.buildableType <;>
    cases hb : G_GetBuildPieceDef b.buildableType <;> simp
  simp [Bool.and_comm, Bool.and_left_comm, Bool.and_assoc]

/-- The loop test of `G_CanPlaceBuildable` agrees with `buildableOverlap`
once the candidate is realised as an entity with the candidate's type and
origin. -/
lemma buildableOverlap_eq_overlapsExisting {e : Buildable} {d : buildPieceDef}
    (hd : G_GetBuildPieceDef e.buildableType = some d) (hit : Buildable) :
    buildableOverlap e hit = overlapsExisting d e.origin hit := by
  unfold buildableOverlap overlapsExisting
  rw [hd]
  cases G_GetBuildPieceDef hit.buildableType <;> rfl

/-- One engine step preserves the non-overlap invariant. -/
lemma noOverlap_step {cfg : Config} {s s' : GameState}
    (hstep : BuildStep cfg s s') (hinv : NoOverlap s) : NoOverlap s' := by
  cases hstep with
  | spawn wt alloc s ty o ang b s' b' e hspawn =>
    obtain ⟨d, hd, ht, ha, hety, heo, hs', hcp⟩ := spawn_success_inv hspawn
    subst hs'
    unfold NoOverlap at hinv ⊢
    rw [List.pairwise_append]
    refine ⟨hinv, List.pairwise_singleton _ _, ?_⟩
    intro a hmem x hx
    rw [List.mem_singleton] at hx
    rw [hx]
    obtain ⟨_, _, d', hd', _, _, _, hall⟩ := canPlace_true_inv hcp
    rw [hd] at hd'
    injection hd' with hd'
    subst hd'
    have hde : G_GetBuildPieceDef e.buildableType = some d := by rw [hety, hd]
    rw [buildableOverlap_symm a e, buildableOverlap_eq_overlapsExisting hde a, heo]
    exact hall a hmem
  | destroy s l1 e l2 hsplit =>
    unfold NoOverlap at hinv ⊢
    rw [hsplit] at hinv
    exact hinv.sublist ((List.Sublist.refl l1).append (List.sublist_cons_self e l2))
  | tick s t =>
    exact hinv

/-- One engine step preserves the population bound. -/
lemma count_step {cfg : Config} {s s' : GameState}
    (hstep : BuildStep cfg s s')
    (hc : (G_CountBuildables s : Int) ≤ cfg.maxStructures) :
    (G_CountBuildables s' : Int) ≤ cfg.maxStructures := by
  cases hstep with
  | spawn wt alloc s ty o ang b s' b' e hspawn =>
    obtain ⟨d, hd, ht, ha, hety, heo, hs', hcp⟩ := spawn_success_inv hspawn
    subst hs'
    obtain ⟨_, _, d', hd', _, hcount, _⟩ := canPlace_true_inv hcp
    unfold G_CountBuildables at *
    simp only [List.length_append, List.length_singleton]
    push_cast
    omega
  | destroy s l1 e l2 hsplit =>
    unfold G_CountBuildables at *
    rw [hsplit] at hc
    simp only [List.length_append, List.length_cons] at hc ⊢
    push_cast at hc ⊢
    omega
  | tick s t =>
    exact hc

/-- Every reachable state satisfies the non-overlap invariant. -/
lemma reachable_noOverlap {cfg : Config} {s : GameState}
    (h : Reachable cfg s) : NoOverlap s := by
  induction h with
  | refl => exact List.Pairwise.nil
  | tail _ hstep ih => exact noOverlap_step hstep ih

/-- Every reachable state satisfies the population bound (for a
non-negative configured maximum). -/
lemma reachable_count_le {cfg : Config} {s : GameState}
    (hmax : 0 ≤ cfg.maxStructures) (h : Reachable cfg s) :
    (G_CountBuildables s : Int) ≤ cfg.maxStructures := by
  induction h with
  | refl => simpa [G_CountBuildables] using hmax
  | tail _ hstep ih => exact count_step hstep ih

/-- Complete case analysis of `Cmd_BuildPlace_f` for an acting entity
with a client: silent returns (inactive, cooldown), the distinct
insufficient-materials signal, the generic failure signal with no state
change, or a successful placement appending one entity, debiting the cost
once and recording `level.time` as the last build time. -/
lemma cmd_characterize {cfg : Config} {wt : Vec3 → Vec3 → Vec3 → Int → Bool}
    {alloc : Bool} {ep : Vec3} {s : GameState} {ent : Gentity} {c : ClientState}
    (hc : ent.client = some c) :
    (c.active = false ∧
      Cmd_BuildPlace_f cfg wt alloc ep s ent = some ⟨s, ent, .noreply⟩) ∨
    (c.active = true ∧ s.time < c.lastBuildTime + BUILD_COOLDOWN_MS ∧
      Cmd_BuildPlace_f cfg wt alloc ep s ent = some ⟨s, ent, .noreply⟩) ∨
    (c.active = true ∧ c.lastBuildTime + BUILD_COOLDOWN_MS ≤ s.time ∧
      ∃ d, G_GetBuildPieceDef c.selectedType = some d ∧
        ((c.materials < d.materialCost ∧
           Cmd_BuildPlace_f cfg wt alloc ep s ent = some ⟨s, ent, .notEnoughMaterials⟩) ∨
         (d.materialCost ≤ c.materials ∧
           G_SpawnBuildable cfg wt alloc s c.selectedType ep ⟨0, (c.rotation : ℚ), 0⟩ (some ent) =
             .fail s (some ent) ∧
           Cmd_BuildPlace_f cfg wt alloc ep s ent = some ⟨s, ent, .cannotPlaceHere⟩) ∨
         (d.materialCost ≤ c.materials ∧
           ∃ e, G_SpawnBuildable cfg wt alloc s c.selectedType ep ⟨0, (c.rotation : ℚ), 0⟩ (some ent) =
               .success { s with buildables := s.buildables ++ [e] }
                 (some { ent with client := some { c with materials := c.materials - d.materialCost } }) e ∧
             Cmd_BuildPlace_f cfg wt alloc ep s ent = some
               ⟨{ s with buildables := s.buildables ++ [e] },
                { ent with client := some { c with
                    materials := c.materials - d.materialCost, lastBuildTime := s.time } },
                .placed⟩))) := by
  by_cases hact : c.active = false
  · left
    refine ⟨hact, ?_⟩
    unfold Cmd_BuildPlace_f
    simp [hc, hact]
  · rw [Bool.not_eq_false] at hact
    by_cases hcool : s.time < c.lastBuildTime + BUILD_COOLDOWN_MS
    · right; left
      refine ⟨hact, hcool, ?_⟩
      unfold Cmd_BuildPlace_f
      simp [hc, hact, hcool]
    · right; right
      refine ⟨hact, by omega, ?_⟩
      cases hd : G_GetBuildPieceDef c.selectedType with
      | none =>
        have := getBuildPieceDef_isSome c.selectedType
        rw [hd] at this
        exact absurd this (by simp)
      | some d =>
        refine ⟨d, rfl, ?_⟩
        by_cases hm : c.materials < d.materialCost
        · left
          refine ⟨hm, ?_⟩
          unfold Cmd_BuildPlace_f
          simp [hc, hact, hcool, hd, hm]
        · cases hsp : G_SpawnBuildable cfg wt alloc s c.selectedType ep ⟨0, (c.rotation : ℚ), 0⟩ (some ent) with
          | crash =>
            obtain ⟨g, hg, hgc, _⟩ := spawn_crash_inv hsp
            injection hg with hg
            rw [← hg, hc] at hgc
            exact Option.noConfusion hgc
          | fail s' b' =>
            obtain ⟨hs', hb'⟩ := spawn_fail_inv hsp
            subst hs'
            subst hb'
            right; left
            refine ⟨by omega, rfl, ?_⟩
            unfold Cmd_BuildPlace_f
            simp [hc, hact, hcool, hd, hm, hsp]
          | success s' b' e =>
            obtain ⟨d2, hd2, hb', hs'⟩ := spawn_success_client_inv hc hsp
            rw [hd] at hd2
            injection hd2 with hd2
            subst hd2
            subst hb'
            subst hs'
            right; right
            refine ⟨by omega, e, rfl, ?_⟩
            unfold Cmd_BuildPlace_f
            simp [hc, hact, hcool, hd, hm, hsp, setLastBuildTime]

/-- Concrete evaluation: a fully valid buildplace places a wall, debits
10 materials and records the time. -/
lemma cmd_eval_ready :
    Cmd_BuildPlace_f cfgOn wtNone true v0 sEmpty100 entReady = some rPlaced := by
  simp [Cmd_BuildPlace_f, G_SpawnBuildable, G_CanPlaceBuildable, G_SnapToGrid,
    G_GetBuildPieceDef, buildPieceDefs, materialsShort, builderNum, G_CountBuildables,
    BUILD_NUM_TYPES, BUILD_COOLDOWN_MS, BUILD_DEFAULT_HEALTH, BUILD_GRID_SIZE,
    setLastBuildTime, Rat.floor_def', cfgOn, wtNone, v0, clientReady, entReady,
    sEmpty100, rPlaced]

/-- Concrete evaluation: with building disabled the spawn rejects. -/
lemma spawn_eval_disabled :
    G_SpawnBuildable cfgOff wtNone true sEmpty100 1 v0 v0 none = .fail sEmpty100 none := by
  unfold G_SpawnBuildable
  simp [cfgOff]

/-- Looking up type 1 yields the wall definition. -/
lemma getDef_one : G_GetBuildPieceDef 1 = some wallDef := rfl

/-- Concrete evaluation: the validator passes for `entReady` placing a
wall in the empty world. -/
lemma canPlace_eval_ready :
    G_CanPlaceBuildable cfgOn wtNone sEmpty100 clientReady.selectedType
      (G_SnapToGrid v0 wallDef.gridSnap) ⟨0, (clientReady.rotation : ℚ), 0⟩
      (some entReady) = true := by
  unfold G_CanPlaceBuildable
  simp [cfgOn, wtNone, v0, clientReady, entReady, sEmpty100, wallDef,
    G_GetBuildPieceDef, buildPieceDefs, BUILD_NUM_TYPES, materialsShort,
    builderNum, G_CountBuildables]

/-- Concrete evaluation: a wall candidate at the origin overlaps the wall
already standing there. -/
lemma overlap_eval_wall : overlapsExisting wallDef v0 wallEnt = true := by
  unfold overlapsExisting
  simp [wallEnt, wallDef, v0, vecAdd, G_GetBuildPieceDef, buildPieceDefs, BUILD_NUM_TYPES]

/-- Arithmetic facts for the abutting-walls configuration. -/
lemma c6_nums :
    ((⟨-64, 0, 0⟩ : Vec3).x + wallDef.maxs.x = wallEnt.origin.x + wallDef.mins.x) ∧
    (wallDef.mins.x ≤ wallDef.maxs.x) ∧
    ((⟨-64, 0, 0⟩ : Vec3).y + wallDef.mins.y ≤ wallEnt.origin.y + wallDef.maxs.y) ∧
    (wallEnt.origin.y + wallDef.mins.y ≤ (⟨-64, 0, 0⟩ : Vec3).y + wallDef.maxs.y) ∧
    ((⟨-64, 0, 0⟩ : Vec3).z + wallDef.mins.z ≤ wallEnt.origin.z + wallDef.maxs.z) ∧
    (wallEnt.origin.z + wallDef.mins.z ≤ (⟨-64, 0, 0⟩ : Vec3).z + wallDef.maxs.z) := by
  norm_num [wallDef, wallEnt, v0]

/-! ## Claims -/


/-- C4: the grid snap rounds each of the three axes independently to the
nearest multiple of the quantum via `floor(x/quantum + 0.5) * quantum`,
and is idempotent: `snap(snap(p,g),g) = snap(p,g)` for every `p` and `g`. -/
theorem C4_snap_formula_and_idempotent (p : Vec3) (g : ℚ) :
    G_SnapToGrid p g =
      ⟨(⌊p.x / g + 1/2⌋ : ℚ) * g, (⌊p.y / g + 1/2⌋ : ℚ) * g, (⌊p.z / g + 1/2⌋ : ℚ) * g⟩ ∧
    G_SnapToGrid (G_SnapToGrid p g) g = G_SnapToGrid p g := by
  constructor
  · unfold G_SnapToGrid
    rw [ratFloor_eq_intFloor, ratFloor_eq_intFloor, ratFloor_eq_intFloor]
  · unfold G_SnapToGrid
    simp only [Vec3.mk.injEq]
    exact ⟨snapAxis_idem p.x g, snapAxis_idem p.y g, snapAxis_idem p.z g⟩

/-- C10: `G_GetBuildPieceDef` is total — for every input, including
negative and out-of-range types, it returns the inert `NONE` definition or
the definition indexed by the type; its result is never `none`, so the
null-definition error branches in the callers are unreachable. -/
theorem C10_getBuildPieceDef_total (t t2 t3 : Int)
    (h2 : t2 < 0 ∨ BUILD_NUM_TYPES ≤ t2) (h3a : 0 ≤ t3) (h3b : t3 < BUILD_NUM_TYPES) :
    (G_GetBuildPieceDef t).isSome = true ∧
    G_GetBuildPieceDef t2 = buildPieceDefs.get? 0 ∧
    G_GetBuildPieceDef t3 = buildPieceDefs.get? t3.toNat := by
  refine ⟨getBuildPieceDef_isSome t, ?_, ?_⟩
  · unfold G_GetBuildPieceDef
    rw [if_pos h2]
  · unfold G_GetBuildPieceDef
    rw [if_neg]
    push_neg
    exact ⟨h3a, h3b⟩

/-- Witness for C10 at `t = 7`, `t2 = 7`, `t3 = 3`. -/
theorem C10_witness :
    (G_GetBuildPieceDef 7).isSome = true ∧
    G_GetBuildPieceDef 7 = buildPieceDefs.get? 0 ∧
    G_GetBuildPieceDef 3 = buildPieceDefs.get? (3 : Int).toNat :=
  C10_getBuildPieceDef_total 7 7 3 (by decide) (by decide) (by decide)

/-- C9: `G_SpawnBuildable` dereferences the builder's client
unconditionally at the owner assignment while the validator's materials
check only applies when the builder has a client, so the operation avoids
the crash branch exactly under the precondition that the builder is null
or has a non-null client; a non-null builder with a null client reaches
the crash. -/
theorem C9_spawn_client_precondition (cfg : Config)
    (wt : Vec3 → Vec3 → Vec3 → Int → Bool) (alloc : Bool)
    (s : GameState) (ty : Int) (o ang : Vec3) (b : Option Gentity)
    (hb : b = none ∨ ∃ g c, b = some g ∧ g.client = some c) :
    G_SpawnBuildable cfg wt alloc s ty o ang b ≠ .crash ∧
    G_SpawnBuildable cfgOn wtNone true ⟨[], 0⟩ 1 v0 v0 (some ⟨0, none⟩) = .crash := by
  constructor
  · intro hcr
    obtain ⟨g, hg, hgc, _⟩ := spawn_crash_inv hcr
    rcases hb with hb | ⟨g2, c2, hb, hc2⟩
    · rw [hb] at hg
      exact Option.noConfusion hg
    · rw [hb] at hg
      injection hg with hg
      rw [hg] at hc2
      rw [hgc] at hc2
      exact Option.noConfusion hc2
  · unfold G_SpawnBuildable
    simp [cfgOn, wtNone, v0, G_GetBuildPieceDef, buildPieceDefs, BUILD_NUM_TYPES,
      G_CanPlaceBuildable, materialsShort, builderNum, G_CountBuildables]

/-- Witness for C9 with a null builder. -/
theorem C9_witness :
    G_SpawnBuildable cfgOff wtNone false sEmpty100 0 v0 v0 none ≠ .crash ∧
    G_SpawnBuildable cfgOn wtNone true ⟨[], 0⟩ 1 v0 v0 (some ⟨0, none⟩) = .crash :=
  C9_spawn_client_precondition cfgOff wtNone false sEmpty100 0 v0 v0 none (Or.inl rfl)

/-- C1: placement is atomic.  Any rejected buildplace leaves the game
state (live structures) and the acting entity (material balance and
`lastBuildTime`) exactly as they were; a successful one debits the piece's
material cost exactly once and adds exactly one structure.  At the
registry level, a failing `G_SpawnBuildable` returns its input state and
builder unchanged. -/
theorem C1_placement_atomic (cfg : Config)
    (wt : Vec3 → Vec3 → Vec3 → Int → Bool) (alloc : Bool)
    (ep : Vec3) (s : GameState) (ent : Gentity) (c : ClientState) (r : CmdResult)
    (hc : ent.client = some c)
    (hr : Cmd_BuildPlace_f cfg wt alloc ep s ent = some r)
    (cfg2 : Config) (wt2 : Vec3 → Vec3 → Vec3 → Int → Bool) (alloc2 : Bool)
    (s2 : GameState) (ty2 : Int) (o2 ang2 : Vec3) (b2 : Option Gentity)
    (s2' : GameState) (b2' : Option Gentity)
    (hf : G_SpawnBuildable cfg2 wt2 alloc2 s2 ty2 o2 ang2 b2 = .fail s2' b2') :
    ((r.signal ≠ .placed → r.state = s ∧ r.ent = ent) ∧
     (r.signal = .placed →
       ∃ d, G_GetBuildPieceDef c.selectedType = some d ∧
         ∃ c', r.ent.client = some c' ∧
           c'.materials = c.materials - d.materialCost ∧
           r.state.buildables.length = s.buildables.length + 1)) ∧
    (s2' = s2 ∧ b2' = b2) := by
  refine ⟨?_, spawn_fail_inv hf⟩
  rcases @cmd_characterize cfg wt alloc ep s ent c hc with
    ⟨hact, hcmd⟩ | ⟨hact, hcool, hcmd⟩ | ⟨hact, hcool, d, hd, hbr⟩
  · rw [hcmd] at hr
    injection hr with hr
    subst hr
    exact ⟨fun _ => ⟨rfl, rfl⟩, fun hpl => absurd hpl (by simp)⟩
  · rw [hcmd] at hr
    injection hr with hr
    subst hr
    exact ⟨fun _ => ⟨rfl, rfl⟩, fun hpl => absurd hpl (by simp)⟩
  · rcases hbr with ⟨hm, hcmd⟩ | ⟨hm, hsp, hcmd⟩ | ⟨hm, e, hsp, hcmd⟩
    · rw [hcmd] at hr
      injection hr with hr
      subst hr
      exact ⟨fun _ => ⟨rfl, rfl⟩, fun hpl => absurd hpl (by simp)⟩
    · rw [hcmd] at hr
      injection hr with hr
      subst hr
      exact ⟨fun _ => ⟨rfl, rfl⟩, fun hpl => absurd hpl (by simp)⟩
    · rw [hcmd] at hr
      injection hr with hr
      subst hr
      refine ⟨fun hne => absurd rfl hne, fun _ => ⟨d, hd, _, rfl, rfl, by simp⟩⟩

/-- Witness for C1 on the concrete successful placement and a concrete
disabled-spawn rejection. -/
theorem C1_witness :
    ((rPlaced.signal ≠ .placed → rPlaced.state = sEmpty100 ∧ rPlaced.ent = entReady) ∧
     (rPlaced.signal = .placed →
       ∃ d, G_GetBuildPieceDef clientReady.selectedType = some d ∧
         ∃ c', rPlaced.ent.client = some c' ∧
           c'.materials = clientReady.materials - d.materialCost ∧
           rPlaced.state.buildables.length = sEmpty100.buildables.length + 1)) ∧
    (sEmpty100 = sEmpty100 ∧ (none : Option Gentity) = none) :=
  C1_placement_atomic cfgOn wtNone true v0 sEmpty100 entReady clientReady rPlaced rfl
    cmd_eval_ready cfgOff wtNone true sEmpty100 1 v0 v0 none sEmpty100 none
    spawn_eval_disabled

/-- C5: cooldown boundary semantics.  After a successful placement at
time `t` (recorded in `lastBuildTime`), a buildplace strictly before
`t + BUILD_COOLDOWN_MS` is rejected with no state change; at
`t + BUILD_COOLDOWN_MS` or later the cooldown gate passes and — with
materials and geometry otherwise valid — the placement succeeds and
`lastBuildTime` is set to the current time (and only then). -/
theorem C5_cooldown_boundary
    (cfg1 : Config) (wt1 : Vec3 → Vec3 → Vec3 → Int → Bool) (alloc1 : Bool)
    (ep1 : Vec3) (s1 : GameState) (ent1 : Gentity) (c1 : ClientState)
    (h1c : ent1.client = some c1) (h1a : c1.active = true)
    (h1t : s1.time < c1.lastBuildTime + BUILD_COOLDOWN_MS)
    (cfg2 : Config) (wt2 : Vec3 → Vec3 → Vec3 → Int → Bool)
    (ep2 : Vec3) (s2 : GameState) (ent2 : Gentity) (c2 : ClientState) (d2 : buildPieceDef)
    (h2c : ent2.client = some c2) (h2a : c2.active = true)
    (h2t : c2.lastBuildTime + BUILD_COOLDOWN_MS ≤ s2.time)
    (h2d : G_GetBuildPieceDef c2.selectedType = some d2)
    (h2m : d2.materialCost ≤ c2.materials)
    (h2p : G_CanPlaceBuildable cfg2 wt2 s2 c2.selectedType
             (G_SnapToGrid ep2 d2.gridSnap) ⟨0, (c2.rotation : ℚ), 0⟩ (some ent2) = true) :
    Cmd_BuildPlace_f cfg1 wt1 alloc1 ep1 s1 ent1 = some ⟨s1, ent1, .noreply⟩ ∧
    ∃ st e2 c2', Cmd_BuildPlace_f cfg2 wt2 true ep2 s2 ent2 = some ⟨st, e2, .placed⟩ ∧
      e2.client = some c2' ∧ c2'.lastBuildTime = s2.time ∧
      c2'.materials = c2.materials - d2.materialCost := by
  constructor
  · unfold Cmd_BuildPlace_f
    simp [h1c, h1a, h1t]
  · obtain ⟨he, ht, d', hd', hrest⟩ := canPlace_true_inv h2p
    rw [h2d] at hd'
    injection hd' with hd'
    subst hd'
    have hsp := spawn_success_of he h2d ht h2p h2c
    refine ⟨{ s2 with buildables := s2.buildables ++
        [spawnedEnt c2.selectedType d2 ep2 ⟨0, (c2.rotation : ℚ), 0⟩ c2.clientNum] },
      { ent2 with client := some { c2 with
          materials := c2.materials - d2.materialCost, lastBuildTime := s2.time } },
      { c2 with materials := c2.materials - d2.materialCost, lastBuildTime := s2.time },
      ?_, rfl, rfl, rfl⟩
    unfold Cmd_BuildPlace_f
    have h2t' : ¬ (s2.time < c2.lastBuildTime + BUILD_COOLDOWN_MS) := by omega
    have h2m' : ¬ (c2.materials < d2.materialCost) := by omega
    simp [h2c, h2a, h2t', h2d, h2m', hsp, setLastBuildTime]

/-- Witness for C5: at time 99 a placement with `lastBuildTime = 0` is
silently rejected; at time 100 it succeeds. -/
theorem C5_witness :
    Cmd_BuildPlace_f cfgOn wtNone true v0 ⟨[], 99⟩ entReady =
      some ⟨⟨[], 99⟩, entReady, .noreply⟩ ∧
    ∃ st e2 c2', Cmd_BuildPlace_f cfgOn wtNone true v0 sEmpty100 entReady =
        some ⟨st, e2, .placed⟩ ∧
      e2.client = some c2' ∧ c2'.lastBuildTime = sEmpty100.time ∧
      c2'.materials = clientReady.materials - wallDef.materialCost :=
  C5_cooldown_boundary cfgOn wtNone true v0 ⟨[], 99⟩ entReady clientReady rfl rfl
    (by decide) cfgOn wtNone v0 sEmpty100 entReady clientReady wallDef rfl rfl
    (by decide) getDef_one (by decide) canPlace_eval_ready

/-- C2: non-overlap invariant.  In every reachable state no two live
structures' world-space AABBs (origin plus piece `mins`/`maxs`) intersect
under the closed-interval per-axis test, and the validator rejects any
candidate that overlaps any one of arbitrarily many existing live
structures. -/
theorem C2_no_overlap_invariant (cfg : Config) (s : GameState)
    (hreach : Reachable cfg s)
    (cfg2 : Config) (wt2 : Vec3 → Vec3 → Vec3 → Int → Bool) (s2 : GameState)
    (ty2 : Int) (d2 : buildPieceDef) (o2 ang2 : Vec3) (b2 : Option Gentity)
    (hit2 : Buildable)
    (hd2 : G_GetBuildPieceDef ty2 = some d2)
    (hmem : hit2 ∈ s2.buildables)
    (hov : overlapsExisting d2 o2 hit2 = true) :
    NoOverlap s ∧
    G_CanPlaceBuildable cfg2 wt2 s2 ty2 o2 ang2 b2 = false :=
  ⟨reachable_noOverlap hreach, canPlace_false_of_overlap hd2 hmem hov⟩

/-- C3: population cap.  In every reachable state (for a non-negative
configured maximum) the live-structure count is at most the maximum, and
once the count has reached the maximum every further spawn request fails
regardless of oracle answers, geometry, materials, builder or position. -/
theorem C3_population_cap (cfg : Config) (s : GameState)
    (hN : 0 ≤ cfg.maxStructures) (hreach : Reachable cfg s)
    (cfg2 : Config) (wt2 : Vec3 → Vec3 → Vec3 → Int → Bool) (alloc2 : Bool)
    (s2 : GameState) (ty2 : Int) (o2 ang2 : Vec3) (b2 : Option Gentity)
    (hfull : cfg2.maxStructures ≤ (G_CountBuildables s2 : Int)) :
    (G_CountBuildables s : Int) ≤ cfg.maxStructures ∧
    G_SpawnBuildable cfg2 wt2 alloc2 s2 ty2 o2 ang2 b2 = .fail s2 b2 := by
  refine ⟨reachable_count_le hN hreach, ?_⟩
  rcases spawn_characterize cfg2 wt2 alloc2 s2 ty2 o2 ang2 b2 with
    hf | ⟨hc, hcrash⟩ | ⟨d, hd, ht, ha, hcp, hsucc⟩
  · exact hf
  · obtain ⟨g, d, hb, hgc, hd, ha, hcp⟩ := hcrash
    obtain ⟨u1, u2, d3, hd3, u3, hcount, u4⟩ := canPlace_true_inv hcp
    omega
  · obtain ⟨u1, u2, d3, hd3, u3, hcount, u4⟩ := canPlace_true_inv hcp
    omega

/-- Witness for C2 at the initial state and a one-wall world. -/
theorem C2_witness :
    NoOverlap ⟨[], 0⟩ ∧
    G_CanPlaceBuildable cfgOn wtNone sWall 1 v0 v0 none = false :=
  C2_no_overlap_invariant cfgOn ⟨[], 0⟩ Relation.ReflTransGen.refl
    cfgOn wtNone sWall 1 wallDef v0 v0 none wallEnt getDef_one
    (by simp [sWall]) overlap_eval_wall

/-- Witness for C3 at the initial state and a zero cap. -/
theorem C3_witness :
    (G_CountBuildables ⟨[], 0⟩ : Int) ≤ cfgOn.maxStructures ∧
    G_SpawnBuildable cfgMax0 wtNone true sEmpty100 1 v0 v0 none = .fail sEmpty100 none :=
  C3_population_cap cfgOn ⟨[], 0⟩ (by decide) Relation.ReflTransGen.refl
    cfgMax0 wtNone true sEmpty100 1 v0 v0 none (by decide)

/-- C6: two structures whose world AABBs touch only at a shared boundary
(candidate `maxX` equal to existing `minX`, the other two axes' intervals
intersecting, both boxes well-formed on the x axis) count as overlapping
under the closed-interval test, so the validator rejects the placement. -/
theorem C6_boundary_touch_rejected (cfg : Config)
    (wt : Vec3 → Vec3 → Vec3 → Int → Bool) (s : GameState) (ty : Int)
    (d dh : buildPieceDef) (o ang : Vec3) (b : Option Gentity) (hit : Buildable)
    (hd : G_GetBuildPieceDef ty = some d)
    (hdh : G_GetBuildPieceDef hit.buildableType = some dh)
    (hmem : hit ∈ s.buildables)
    (htouch : o.x + d.maxs.x = hit.origin.x + dh.mins.x)
    (hwf1 : d.mins.x ≤ d.maxs.x) (hwf2 : dh.mins.x ≤ dh.maxs.x)
    (hy1 : o.y + d.mins.y ≤ hit.origin.y + dh.maxs.y)
    (hy2 : hit.origin.y + dh.mins.y ≤ o.y + d.maxs.y)
    (hz1 : o.z + d.mins.z ≤ hit.origin.z + dh.maxs.z)
    (hz2 : hit.origin.z + dh.mins.z ≤ o.z + d.maxs.z) :
    overlapsExisting d o hit = true ∧
    G_CanPlaceBuildable cfg wt s ty o ang b = false := by
  have hov : overlapsExisting d o hit = true := by
    unfold overlapsExisting
    rw [hdh]
    simp only [vecAdd, ge_iff_le, decide_eq_true_eq]
    refine ⟨by linarith, by linarith, hy1, hy2, hz1, hz2⟩
  exact ⟨hov, canPlace_false_of_overlap hd hmem hov⟩

/-- Witness for C6: a wall candidate at `x = -64` exactly abutting the
wall standing at the origin. -/
theorem C6_witness :
    overlapsExisting wallDef ⟨-64, 0, 0⟩ wallEnt = true ∧
    G_CanPlaceBuildable cfgOn wtNone sWall 1 ⟨-64, 0, 0⟩ v0 none = false :=
  C6_boundary_touch_rejected cfgOn wtNone sWall 1 wallDef wallDef ⟨-64, 0, 0⟩ v0
    none wallEnt getDef_one rfl (by simp [sWall])
    c6_nums.1 c6_nums.2.1 c6_nums.2.1
    c6_nums.2.2.1 c6_nums.2.2.2.1 c6_nums.2.2.2.2.1 c6_nums.2.2.2.2.2

/-- Counterexample to C7 as stated: with the feature administratively
disabled (and materials plentiful, session active, cooldown passed) a
buildplace emits the generic `cannotPlaceHere` failure signal — not a
distinct disabled signal; the identical request with the feature enabled
places.  The only distinct pre-trace signal `Cmd_BuildPlace_f` ever emits
is `notEnoughMaterials`. -/
theorem C7_counterexample :
    Cmd_BuildPlace_f cfgOff wtNone true v0 sEmpty100 entReady =
      some ⟨sEmpty100, entReady, .cannotPlaceHere⟩ ∧
    Cmd_BuildPlace_f cfgOn wtNone true v0 sEmpty100 entReady = some rPlaced ∧
    rPlaced.signal = .placed ∧
    clientReady.materials = 100 ∧ cfgOff.buildingEnabled = 0 := by
  refine ⟨?_, cmd_eval_ready, rfl, rfl, rfl⟩
  have hsp : G_SpawnBuildable cfgOff wtNone true sEmpty100 1 v0 ⟨0, (0 : ℚ), 0⟩
      (some entReady) = .fail sEmpty100 (some entReady) := by
    unfold G_SpawnBuildable
    simp [cfgOff]
  unfold Cmd_BuildPlace_f
  have h1 : entReady.client = some clientReady := rfl
  have ha : clientReady.active = true := rfl
  have hsel : clientReady.selectedType = 1 := rfl
  have hrot : clientReady.rotation = 0 := rfl
  have ht2 : ¬ (sEmpty100.time < clientReady.lastBuildTime + BUILD_COOLDOWN_MS) := by decide
  have hm2 : ¬ (clientReady.materials < wallDef.materialCost) := by decide
  simp [h1, ha, hsel, hrot, ht2, getDef_one, hm2, hsp]

/-- C7 (amended): among the pre-trace rejections of a buildplace only
insufficient materials carries a distinct actor-visible signal;
a feature-disabled rejection surfaces through the same generic
placement-failure signal as the geometry rejections. -/
theorem C7_amended_pretrace_signals
    (cfg1 : Config) (wt1 : Vec3 → Vec3 → Vec3 → Int → Bool) (a1 : Bool)
    (ep1 : Vec3) (s1 : GameState) (e1 : Gentity) (c1 : ClientState) (d1 : buildPieceDef)
    (h1c : e1.client = some c1) (h1a : c1.active = true)
    (h1t : c1.lastBuildTime + BUILD_COOLDOWN_MS ≤ s1.time)
    (h1d : G_GetBuildPieceDef c1.selectedType = some d1)
    (h1m : c1.materials < d1.materialCost)
    (cfg2 : Config) (wt2 : Vec3 → Vec3 → Vec3 → Int → Bool) (a2 : Bool)
    (ep2 : Vec3) (s2 : GameState) (e2 : Gentity) (c2 : ClientState) (d2 : buildPieceDef)
    (h2c : e2.client = some c2) (h2a : c2.active = true)
    (h2t : c2.lastBuildTime + BUILD_COOLDOWN_MS ≤ s2.time)
    (h2d : G_GetBuildPieceDef c2.selectedType = some d2)
    (h2m : d2.materialCost ≤ c2.materials)
    (h2e : cfg2.buildingEnabled = 0) :
    Cmd_BuildPlace_f cfg1 wt1 a1 ep1 s1 e1 = some ⟨s1, e1, .notEnoughMaterials⟩ ∧
    Cmd_BuildPlace_f cfg2 wt2 a2 ep2 s2 e2 = some ⟨s2, e2, .cannotPlaceHere⟩ ∧
    PlaceSignal.notEnoughMaterials ≠ PlaceSignal.cannotPlaceHere := by
  refine ⟨?_, ?_, by simp⟩
  · unfold Cmd_BuildPlace_f
    have h1t' : ¬ (s1.time < c1.lastBuildTime + BUILD_COOLDOWN_MS) := by omega
    simp [h1c, h1a, h1t', h1d, h1m]
  · have hsp : G_SpawnBuildable cfg2 wt2 a2 s2 c2.selectedType ep2
        ⟨0, (c2.rotation : ℚ), 0⟩ (some e2) = .fail s2 (some e2) := by
      unfold G_SpawnBuildable
      simp [h2e]
    unfold Cmd_BuildPlace_f
    have h2t' : ¬ (s2.time < c2.lastBuildTime + BUILD_COOLDOWN_MS) := by omega
    have h2m' : ¬ (c2.materials < d2.materialCost) := by omega
    simp [h2c, h2a, h2t', h2d, h2m', hsp]

/-- Witness for the amended C7. -/
theorem C7_amended_witness :
    Cmd_BuildPlace_f cfgOn wtNone true v0 sEmpty100 entPoor =
      some ⟨sEmpty100, entPoor, .notEnoughMaterials⟩ ∧
    Cmd_BuildPlace_f cfgOff wtNone true v0 sEmpty100 entReady =
      some ⟨sEmpty100, entReady, .cannotPlaceHere⟩ ∧
    PlaceSignal.notEnoughMaterials ≠ PlaceSignal.cannotPlaceHere :=
  C7_amended_pretrace_signals cfgOn wtNone true v0 sEmpty100 entPoor clientPoor
    wallDef rfl rfl (by decide) getDef_one (by decide)
    cfgOff wtNone true v0 sEmpty100 entReady clientReady wallDef rfl rfl
    (by decide) getDef_one (by decide) rfl

/-- Counterexample to C8 as stated: with building disabled, the
spawn/respawn hook resets the build session but leaves the material
balance untouched (here 7, not the configured starting 100) — the
materials reset is not unconditional. -/
theorem C8_counterexample :
    G_BuildingPlayerSpawn cfgOff entSpent = ⟨0, some ⟨0, 7, false, 0, 0, 0⟩⟩ ∧
    cfgOff.startMaterials = 100 ∧ ((7 : Int) = 100 → False) := by
  refine ⟨rfl, rfl, by decide⟩

/-- C8 (amended): on every actor spawn/respawn the build session is fully
reset; the material balance is reset to the configured starting amount
exactly when building is enabled, and left unchanged when it is
disabled. -/
theorem C8_amended_spawn_reset (cfg : Config) (ent : Gentity) (c : ClientState)
    (hc : ent.client = some c) :
    ∃ c', (G_BuildingPlayerSpawn cfg ent).client = some c' ∧
      (G_BuildingPlayerSpawn cfg ent).number = ent.number ∧
      c'.active = false ∧ c'.selectedType = 0 ∧ c'.rotation = 0 ∧
      c'.lastBuildTime = 0 ∧ c'.clientNum = c.clientNum ∧
      c'.materials = (if cfg.buildingEnabled = 0 then c.materials else cfg.startMaterials) := by
  unfold G_BuildingPlayerSpawn
  rw [hc]
  exact ⟨_, rfl, rfl, rfl, rfl, rfl, rfl, rfl, rfl⟩

/-- Witness for the amended C8 with building enabled. -/
theorem C8_amended_witness :
    ∃ c', (G_BuildingPlayerSpawn cfgOn entSpent).client = some c' ∧
      (G_BuildingPlayerSpawn cfgOn entSpent).number = entSpent.number ∧
      c'.active = false ∧ c'.selectedType = 0 ∧ c'.rotation = 0 ∧
      c'.lastBuildTime = 0 ∧ c'.clientNum = clientSpent.clientNum ∧
      c'.materials =
        (if cfgOn.buildingEnabled = 0 then clientSpent.materials else cfgOn.startMaterials) :=
  C8_amended_spawn_reset cfgOn entSpent clientSpent rfl
